import Mathlib

/-!
# Verification of pip-services3-couchbase-go

A shallow embedding of the Couchbase persistence components of the
`pip-services3-couchbase-go` repository, together with theorems settling the
specification claims about them.

Conventions of the embedding:
* Go strings are Lean `String`s; Go `int64` is `Int`; Go maps with string keys
  are association lists `List (String × String)` iterated in insertion order
  (a deterministic rendering of Go's per-map iteration order).
* Fallible Go functions return `Except` / pair the result with an
  `Option`-typed error, mirroring the `(result, err)` convention.
* Go panics are modelled by the `GoResult.panic` constructor.
* The gocb bucket client is modelled as a key/value store with the documented
  semantics of `Get` / `Insert` / `Upsert` / `Replace` / `Remove`.
-/

namespace Couchbase

/-! ## Small string utilities

`hasSubstr pat s` decides whether `pat` occurs contiguously in `s`
(the counterpart of Go's `strings.Index(s, pat) >= 0`). -/

def isPrefixOfChars : List Char → List Char → Bool
  | [], _ => true
  | _ :: _, [] => false
  | a :: as, b :: bs => a == b && isPrefixOfChars as bs

def hasSubstrChars (pat : List Char) : List Char → Bool
  | [] => pat.isEmpty
  | l@(_ :: rest) => isPrefixOfChars pat l || hasSubstrChars pat rest

def hasSubstr (pat s : String) : Bool :=
  hasSubstrChars pat.data s.data

/-! ## Paging parameters

Model of `PagingParams` from pip-services3-commons-go (an external
collaborator of this repository): `Skip`/`Take` are `int64` fields using `-1`
as the "not set" sentinel, `Total` is a flag requesting the total count. -/

structure PagingParams where
  Skip : Int
  Take : Int
  Total : Bool
deriving DecidableEq, Repr

def NewEmptyPagingParams : PagingParams :=
  { Skip := -1, Take := -1, Total := false }

def PagingParams.GetSkip (c : PagingParams) (minSkip : Int) : Int :=
  if c.Skip < 0 then minSkip
  else if c.Skip < minSkip then minSkip
  else c.Skip

def PagingParams.GetTake (c : PagingParams) (maxTake : Int) : Int :=
  if c.Take < 0 then maxTake
  else if c.Take > maxTake then maxTake
  else c.Take

/-! ## Persistence component state relevant to statement building

`IdentifiableCouchbasePersistence` carries a bucket name, a collection name
and `MaxPageSize`; `NewIdentifiableCouchbasePersistence` initialises
`MaxPageSize` to 100. -/

structure PersistCtx where
  BucketName : String
  CollectionName : String
  MaxPageSize : Int
deriving DecidableEq, Repr

def NewIdentifiableCouchbasePersistence (bucket collection : String) : PersistCtx :=
  { BucketName := bucket, CollectionName := collection, MaxPageSize := 100 }

/-! ## N1QL statement building

Translated from `IdentifiableCouchbasePersistence.GetPageByFilter` and
`IdentifiableCouchbasePersistence.GetListByFilter`
(src/persistence/IdentifiableCouchbasePersistence.go): only the pure
statement-construction part, exactly as the Go code concatenates it. -/

def pageStatement (c : PersistCtx) (filter : String) (paging : Option PagingParams)
    (sort sel : String) : String :=
  let selectStatement := if sel != "" then sel else "*"
  let statement := "SELECT " ++ selectStatement ++ " FROM `" ++ c.BucketName ++ "`"
  let paging := match paging with
    | none => NewEmptyPagingParams
    | some p => p
  let skip := paging.GetSkip (-1)
  let take := paging.GetTake c.MaxPageSize
  let collectionFilter := "_c='" ++ c.CollectionName ++ "'"
  let filter := if filter != "" then collectionFilter ++ " AND " ++ filter
    else collectionFilter
  let statement := statement ++ " WHERE " ++ filter
  let statement := if sort != "" then statement ++ " ORDER BY " ++ sort else statement
  let statement := if skip >= 0 then statement ++ " OFFSET " ++ toString skip else statement
  statement ++ " LIMIT " ++ toString take

def listStatement (c : PersistCtx) (filter : String) (sort sel : String) : String :=
  let selectStatement := if sel != "" then sel else "*"
  let statement := "SELECT " ++ selectStatement ++ " FROM `" ++ c.BucketName ++ "`"
  let statement := if filter != "" then statement ++ " WHERE " ++ filter else statement
  if sort != "" then statement ++ " ORDER BY " ++ sort else statement

/-! ### Specification-side decomposition of the statements

These definitions follow the wording of the specification, clause by clause,
so that the generated statements can be compared against it. -/

def selClause (sel : String) : String := if sel != "" then sel else "*"

def collectionPredicate (c : PersistCtx) : String := "_c='" ++ c.CollectionName ++ "'"

def andFilterPart (filter : String) : String :=
  if filter != "" then " AND " ++ filter else ""

def whereFilterPart (filter : String) : String :=
  if filter != "" then " WHERE " ++ filter else ""

def orderPart (sort : String) : String :=
  if sort != "" then " ORDER BY " ++ sort else ""

def offsetPart (skip : Int) : String :=
  if skip >= 0 then " OFFSET " ++ toString skip else ""

def pagingOrEmpty (paging : Option PagingParams) : PagingParams :=
  match paging with
  | none => NewEmptyPagingParams
  | some p => p

lemma pageStatement_eq (c : PersistCtx) (filter : String) (paging : Option PagingParams)
    (sort sel : String) :
    pageStatement c filter paging sort sel =
      "SELECT " ++ selClause sel ++ " FROM `" ++ c.BucketName ++ "` WHERE " ++
        collectionPredicate c ++ andFilterPart filter ++ orderPart sort ++
        offsetPart ((pagingOrEmpty paging).GetSkip (-1)) ++
        " LIMIT " ++ toString ((pagingOrEmpty paging).GetTake c.MaxPageSize) := by
  unfold pageStatement selClause collectionPredicate andFilterPart orderPart offsetPart
    pagingOrEmpty
  cases paging <;>
    · by_cases hsel : sel = "" <;> by_cases hfil : filter = "" <;>
        by_cases hsort : sort = "" <;>
        simp only [hsel, hfil, hsort, bne_self_eq_false, Bool.false_eq_true, if_false,
          bne_iff_ne, ne_eq, not_false_iff, if_true, not_true_eq_false] <;>
        first
          | (split <;> (apply String.ext <;> simp [String.data_append, List.append_assoc]))
          | (apply String.ext <;> simp [String.data_append, List.append_assoc])
          | rfl

lemma listStatement_eq (c : PersistCtx) (filter sort sel : String) :
    listStatement c filter sort sel =
      "SELECT " ++ selClause sel ++ " FROM `" ++ c.BucketName ++ "`" ++
        whereFilterPart filter ++ orderPart sort := by
  unfold listStatement selClause whereFilterPart orderPart
  by_cases hsel : sel = "" <;> by_cases hfil : filter = "" <;> by_cases hsort : sort = "" <;>
    simp only [hsel, hfil, hsort, bne_self_eq_false, Bool.false_eq_true, if_false,
      bne_iff_ne, ne_eq, not_false_iff, if_true, not_true_eq_false] <;>
    first
      | (apply String.ext <;> simp [String.data_append, List.append_assoc])
      | rfl

/-! ### Substring facts for `hasSubstr` -/

lemma isPrefixOfChars_append (p l : List Char) : isPrefixOfChars p (p ++ l) = true := by
  induction p with
  | nil => rfl
  | cons a as ih =>
    have h : isPrefixOfChars (a :: as) ((a :: as) ++ l) =
        (a == a && isPrefixOfChars as (as ++ l)) := rfl
    rw [h, ih]
    simp

lemma hasSubstrChars_append_right (p b : List Char) :
    hasSubstrChars p (p ++ b) = true := by
  cases p with
  | nil =>
    cases b with
    | nil => rfl
    | cons x xs =>
      have h : hasSubstrChars [] (x :: xs) =
          (isPrefixOfChars [] (x :: xs) || hasSubstrChars [] xs) := rfl
      rw [List.nil_append, h]
      simp [isPrefixOfChars]
  | cons a as =>
    have h : hasSubstrChars (a :: as) ((a :: as) ++ b) =
        (isPrefixOfChars (a :: as) ((a :: as) ++ b) || hasSubstrChars (a :: as) (as ++ b)) := rfl
    rw [h, isPrefixOfChars_append, Bool.true_or]

lemma hasSubstrChars_cons (p : List Char) (x : Char) (l : List Char)
    (h : hasSubstrChars p l = true) : hasSubstrChars p (x :: l) = true := by
  cases l with
  | nil =>
    cases p with
    | nil => rfl
    | cons a as => simp [hasSubstrChars] at h
  | cons y ys =>
    have hrw : hasSubstrChars p (x :: y :: ys) =
        (isPrefixOfChars p (x :: y :: ys) || hasSubstrChars p (y :: ys)) := rfl
    rw [hrw, h, Bool.or_true]

lemma hasSubstrChars_append_left (a p l : List Char)
    (h : hasSubstrChars p l = true) : hasSubstrChars p (a ++ l) = true := by
  induction a with
  | nil => simpa using h
  | cons x xs ih => simpa using hasSubstrChars_cons p x (xs ++ l) ih

lemma hasSubstr_of_eq_append (s a p b : String) (h : s = a ++ p ++ b) :
    hasSubstr p s = true := by
  subst h
  unfold hasSubstr
  have hdata : (a ++ p ++ b).data = a.data ++ (p.data ++ b.data) := by
    simp [String.data_append]
  rw [hdata]
  exact hasSubstrChars_append_left a.data p.data (p.data ++ b.data)
    (hasSubstrChars_append_right p.data b.data)

/-! ## Claim C1 -/

/-- C1 (counterexample): the claim states that the identifiable
`GetListByFilter` always puts the collection predicate `_c='CollectionName'`
into the WHERE clause of its statement.  It does not: for the persistence
created over bucket "test" and collection "dummies", the empty caller filter
yields the statement `SELECT * FROM `test``, which has no WHERE clause and no
occurrence of `_c='dummies'` at all. -/
theorem getListByFilter_empty_filter_has_no_collection_predicate :
    listStatement (NewIdentifiableCouchbasePersistence "test" "dummies") "" "" "" =
      "SELECT * FROM `test`" ∧
    hasSubstr "_c='dummies'"
      (listStatement (NewIdentifiableCouchbasePersistence "test" "dummies") "" "" "") = false :=
  ⟨rfl, rfl⟩

/-- C1 (amended): `GetPageByFilter` unconditionally injects the collection
predicate `_c='CollectionName'` into its WHERE clause — conjoined with the
caller's filter through ` AND ` when one is given, alone when the caller
passes the empty filter — so its statement always contains the predicate.
`GetListByFilter`, by contrast, builds its statement from the caller's filter
alone: no collection predicate is injected (with an empty filter there is no
WHERE clause at all), and its statement does not depend on the collection
name, so collection isolation is enforced only by `GetPageByFilter`. -/
theorem getPageByFilter_injects_collection_predicate_getListByFilter_does_not :
    (∀ (c : PersistCtx) (filter : String) (paging : Option PagingParams) (sort sel : String),
      pageStatement c filter paging sort sel =
        "SELECT " ++ selClause sel ++ " FROM `" ++ c.BucketName ++ "` WHERE " ++
          collectionPredicate c ++ andFilterPart filter ++ orderPart sort ++
          offsetPart ((pagingOrEmpty paging).GetSkip (-1)) ++
          " LIMIT " ++ toString ((pagingOrEmpty paging).GetTake c.MaxPageSize) ∧
      hasSubstr (collectionPredicate c) (pageStatement c filter paging sort sel) = true) ∧
    (∀ (c : PersistCtx) (filter sort sel : String),
      listStatement c filter sort sel =
        "SELECT " ++ selClause sel ++ " FROM `" ++ c.BucketName ++ "`" ++
          whereFilterPart filter ++ orderPart sort ∧
      ∀ (c' : PersistCtx), c'.BucketName = c.BucketName →
        listStatement c' filter sort sel = listStatement c filter sort sel) := by
  constructor
  · intro c filter paging sort sel
    refine ⟨pageStatement_eq c filter paging sort sel, ?_⟩
    refine hasSubstr_of_eq_append _
      ("SELECT " ++ selClause sel ++ " FROM `" ++ c.BucketName ++ "` WHERE ")
      (collectionPredicate c)
      (andFilterPart filter ++ (orderPart sort ++
        (offsetPart ((pagingOrEmpty paging).GetSkip (-1)) ++
          (" LIMIT " ++ toString ((pagingOrEmpty paging).GetTake c.MaxPageSize))))) ?_
    rw [pageStatement_eq]
    simp [String.append_assoc]
  · intro c filter sort sel
    refine ⟨listStatement_eq c filter sort sel, ?_⟩
    intro c' hbn
    rw [listStatement_eq, listStatement_eq, hbn]

/-- C1 (witness for the amended theorem): the list statement of the
collection "others" coincides with that of "dummies" over the same bucket. -/
theorem getListByFilter_collection_independent_witness :
    listStatement (NewIdentifiableCouchbasePersistence "test" "others") "a=1" "" "" =
      listStatement (NewIdentifiableCouchbasePersistence "test" "dummies") "a=1" "" "" :=
  (getPageByFilter_injects_collection_predicate_getListByFilter_does_not.2
    (NewIdentifiableCouchbasePersistence "test" "dummies") "a=1" "" "").2
    (NewIdentifiableCouchbasePersistence "test" "others") rfl

/-! ## The gocb bucket client model

The bucket is a key/value store from bucket keys to wire documents (field
maps).  `Get`/`Insert`/`Upsert`/`Replace`/`Remove` follow the documented
semantics of the gocb v1 client: `Get` and `Remove` fail with
`ErrKeyNotFound` on a missing key, `Insert` fails with `ErrKeyExists` on an
existing key, `Replace` fails with `ErrKeyNotFound` on a missing key and
`Upsert` always succeeds. -/

inductive GoErr
  | keyNotFound
  | keyExists
  | timeout
deriving DecidableEq, Repr

abbrev Doc := List (String × String)

abbrev KV := List (String × Doc)

def setAssoc {α β : Type} [DecidableEq α] (l : List (α × β)) (k : α) (v : β) :
    List (α × β) :=
  match l with
  | [] => [(k, v)]
  | (k', v') :: rest => if k' = k then (k, v) :: rest else (k', v') :: setAssoc rest k v

def removeAssoc {α β : Type} [DecidableEq α] (l : List (α × β)) (k : α) : List (α × β) :=
  l.filter (fun p => p.1 ≠ k)

def getField (d : Doc) (k : String) : String := (d.lookup k).getD ""

def bucketGet (kv : KV) (k : String) : Except GoErr Doc :=
  match kv.lookup k with
  | some d => .ok d
  | none => .error .keyNotFound

def bucketInsert (kv : KV) (k : String) (d : Doc) : Except GoErr KV :=
  match kv.lookup k with
  | some _ => .error .keyExists
  | none => .ok (setAssoc kv k d)

def bucketUpsert (kv : KV) (k : String) (d : Doc) : KV := setAssoc kv k d

def bucketReplace (kv : KV) (k : String) (d : Doc) : Except GoErr KV :=
  match kv.lookup k with
  | some _ => .ok (setAssoc kv k d)
  | none => .error .keyNotFound

def bucketRemove (kv : KV) (k : String) : Except GoErr KV :=
  match kv.lookup k with
  | some _ => .ok (removeAssoc kv k)
  | none => .error .keyNotFound

/-! ## Key-based reads and deletes

Translated from `IdentifiableCouchbasePersistence.generateBucketId`,
`GetOneById` and `DeleteById`.  Ids are strings (`nil` ids are `none`);
row/document conversion back to the public shape drops the `_c` field
(the map branch of `ConvertToPublic`). -/

def generateBucketId (c : PersistCtx) (id : Option String) : String :=
  match id with
  | none => ""
  | some v => c.CollectionName ++ v

def convertDocToPublic (d : Doc) : Doc := removeAssoc d "_c"

def GetOneById (c : PersistCtx) (kv : KV) (id : Option String) :
    Option Doc × Option GoErr :=
  let objectId := generateBucketId c id
  match bucketGet kv objectId with
  | .error e => if e = .keyNotFound then (none, none) else (none, some e)
  | .ok buf => (some (convertDocToPublic buf), none)

def DeleteById (c : PersistCtx) (kv : KV) (id : Option String) :
    (Option Doc × Option GoErr) × KV :=
  let objectId := generateBucketId c id
  match bucketGet kv objectId with
  | .error getErr => ((none, some getErr), kv)
  | .ok buf =>
    if buf.length = 0 then ((none, none), kv)
    else
      match bucketRemove kv objectId with
      | .error remErr =>
        if remErr = .keyNotFound then ((none, none), kv) else ((none, some remErr), kv)
      | .ok kv' => ((some (convertDocToPublic buf), none), kv')

/-! ## Claim C2 -/

/-- C2: for an id with no document at the derived bucket key, `GetOneById`
normalizes the key-not-found condition to `(nil, nil)`, but `DeleteById` does
not — its initial `Get` fails with `ErrKeyNotFound` and that error is
returned as-is (`return nil, getErr`); the not-found normalization inside
`DeleteById` guards only the subsequent `Remove` call, which is never reached
when the key is absent.  This contradicts the claim's statement for
`DeleteById`. -/
theorem getOneById_normalizes_notFound_deleteById_propagates_it
    (c : PersistCtx) (kv : KV) (id : String)
    (h : kv.lookup (c.CollectionName ++ id) = none) :
    GetOneById c kv (some id) = (none, none) ∧
    (DeleteById c kv (some id)).1 = (none, some GoErr.keyNotFound) := by
  unfold GetOneById DeleteById generateBucketId bucketGet
  simp [h]

/-- C2 (witness): deleting id "1" from an empty bucket under collection
"dummies" returns the key-not-found error, while `GetOneById` returns
`(nil, nil)`. -/
theorem getOneById_deleteById_notFound_witness :
    GetOneById (NewIdentifiableCouchbasePersistence "test" "dummies") [] (some "1") =
      (none, none) ∧
    (DeleteById (NewIdentifiableCouchbasePersistence "test" "dummies") [] (some "1")).1 =
      (none, some GoErr.keyNotFound) :=
  getOneById_normalizes_notFound_deleteById_propagates_it
    (NewIdentifiableCouchbasePersistence "test" "dummies") [] "1" rfl

/-! ## The full GetPageByFilter operation

`GetPageByFilter` builds its statement, executes it (the query execution is
a parameter: the statement-to-rows function of the underlying bucket),
converts each row and assembles the page.  `paging.Total` decides whether
the page total is the item count or zero — the code never issues a COUNT
query. -/

structure DataPage where
  Total : Int
  Data : List Doc
deriving DecidableEq, Repr

def GetPageByFilter (c : PersistCtx) (filter : String) (paging : Option PagingParams)
    (sort sel : String) (exec : String → Except GoErr (List Doc)) :
    Except GoErr DataPage :=
  let statement := pageStatement c filter paging sort sel
  let pagingEnabled := (pagingOrEmpty paging).Total
  match exec statement with
  | .error queryErr => .error queryErr
  | .ok rows =>
    let items := rows.map convertDocToPublic
    if pagingEnabled then .ok ⟨(items.length : Int), items⟩ else .ok ⟨0, items⟩

/-! ## Claim C5 -/

/-- C5: whenever the query succeeds, `GetPageByFilter` returns a page whose
total is the length of the page's own data when the paging parameters
request the total and zero otherwise; the LIMIT value is the persistence's
`MaxPageSize` — initialised to 100 by `NewIdentifiableCouchbasePersistence` —
whenever paging does not specify a take (take sentinel below zero, or no
paging at all), and the OFFSET clause is present exactly when the caller's
paging explicitly carries a non-negative skip. -/
theorem getPageByFilter_total_is_page_length_and_default_clauses
    (c : PersistCtx) (filter : String) (paging : Option PagingParams) (sort sel : String)
    (exec : String → Except GoErr (List Doc)) (rows : List Doc)
    (h : exec (pageStatement c filter paging sort sel) = .ok rows) :
    ∃ page : DataPage,
      GetPageByFilter c filter paging sort sel exec = .ok page ∧
      ((pagingOrEmpty paging).Total = true → page.Total = (page.Data.length : Int)) ∧
      ((pagingOrEmpty paging).Total = false → page.Total = 0) ∧
      (∀ b col, (NewIdentifiableCouchbasePersistence b col).MaxPageSize = 100) ∧
      ((pagingOrEmpty paging).Take < 0 →
        (pagingOrEmpty paging).GetTake c.MaxPageSize = c.MaxPageSize) ∧
      pageStatement c filter paging sort sel =
        "SELECT " ++ selClause sel ++ " FROM `" ++ c.BucketName ++ "` WHERE " ++
          collectionPredicate c ++ andFilterPart filter ++ orderPart sort ++
          offsetPart ((pagingOrEmpty paging).GetSkip (-1)) ++
          " LIMIT " ++ toString ((pagingOrEmpty paging).GetTake c.MaxPageSize) ∧
      (offsetPart ((pagingOrEmpty paging).GetSkip (-1)) = "" ↔
        (paging = none ∨ ∃ p, paging = some p ∧ p.Skip < 0)) := by
  refine ⟨if (pagingOrEmpty paging).Total then
      ⟨((rows.map convertDocToPublic).length : Int), rows.map convertDocToPublic⟩
    else ⟨0, rows.map convertDocToPublic⟩, ?_, ?_, ?_, ?_, ?_, ?_, ?_⟩
  · by_cases ht : (pagingOrEmpty paging).Total = true <;>
      simp [GetPageByFilter, h, ht]
  · intro ht
    simp [ht]
  · intro ht
    simp [ht]
  · intro b col
    rfl
  · intro ht
    unfold PagingParams.GetTake
    simp [ht]
  · exact pageStatement_eq c filter paging sort sel
  · have hne : ∀ s : Int, 0 ≤ s → offsetPart s ≠ "" := by
      intro s hs habs
      have hd := congrArg String.data habs
      rw [offsetPart, if_pos (by exact_mod_cast hs)] at hd
      simp [String.data_append] at hd
    constructor
    · intro hz
      cases paging with
      | none => exact Or.inl rfl
      | some p =>
        refine Or.inr ⟨p, rfl, ?_⟩
        by_contra hneg
        push_neg at hneg
        have hskip : 0 ≤ p.GetSkip (-1) := by
          unfold PagingParams.GetSkip
          split <;> (try split) <;> omega
        exact hne _ hskip (by simpa [pagingOrEmpty] using hz)
    · intro hcase
      rcases hcase with hnone | ⟨p, hp, hskip⟩
      · subst hnone
        rfl
      · subst hp
        have : (pagingOrEmpty (some p)).GetSkip (-1) = -1 := by
          unfold pagingOrEmpty PagingParams.GetSkip
          simp [hskip]
        rw [this]
        rfl

/-- C5 (witness): paging `{Skip = -1, Take = -1, Total = true}` over a
one-row response yields a page with total 1 = its own length, statement
`... LIMIT 100` with no OFFSET clause. -/
theorem getPageByFilter_total_witness :
    GetPageByFilter (NewIdentifiableCouchbasePersistence "test" "dummies") ""
      (some ⟨-1, -1, true⟩) "" "" (fun _ => .ok [[("id", "1")]]) =
      .ok ⟨1, [[("id", "1")]]⟩ ∧
    pageStatement (NewIdentifiableCouchbasePersistence "test" "dummies") ""
      (some ⟨-1, -1, true⟩) "" "" = "SELECT * FROM `test` WHERE _c='dummies' LIMIT 100" := by
  obtain ⟨page, hrun, -, -, -, -, -, -⟩ :=
    getPageByFilter_total_is_page_length_and_default_clauses
      (NewIdentifiableCouchbasePersistence "test" "dummies") "" (some ⟨-1, -1, true⟩) "" ""
      (fun _ => .ok [[("id", "1")]]) [[("id", "1")]] rfl
  have hpage : (.ok page : Except GoErr DataPage) = .ok ⟨1, [[("id", "1")]]⟩ := by
    rw [← hrun]
    rfl
  exact ⟨hrun.trans hpage, rfl⟩

/-! ## Record values, the heap, and the write operations

`Create`/`Set`/`Update` receive an `interface{}` record, clone it, mutate the
clone (id generation, `_c` tagging) and write the wire document.  To express
the in-place mutations and the claim that the caller's record is never
touched, records live on an explicit heap of references; a record value is
classified by its dynamic shape as the reflection code in
`ConvertFromPublic`/`ConvertToPublic` sees it. -/

inductive Val
  /-- a `map[string]interface\x7b\x7d` record (its entries) -/
  | vmap (fields : Doc)
  /-- a value of `reflect.Kind` `Map` that fails the type assertion to
  `map[string]interface\x7b\x7d` -/
  | vmapBad
  /-- a struct record, represented by its json field map -/
  | vstruct (fields : Doc)
  /-- any other dynamic shape -/
  | vother
deriving DecidableEq, Repr

abbrev Heap := List (Nat × Val)

def heapGetD (h : Heap) (r : Nat) : Val := (h.lookup r).getD .vother

def freshRef (h : Heap) : Nat := (h.map (fun p => p.1)).foldr Nat.max 0 + 1

/-- Go results: a normal return value or a panic. -/
inductive GoResult (α : Type)
  | panic (msg : String)
  | ret (a : α)
deriving DecidableEq, Repr

/-- Modelled external collaborator `cmpersist.CloneObject`
(pip-services3-data-go): deep-copies the record; on the heap this allocates a
fresh reference holding a copy of the referenced value. -/
def cloneObject (h : Heap) (r : Nat) : Heap × Nat :=
  let newRef := freshRef h
  (setAssoc h newRef (heapGetD h r), newRef)

/-- Modelled external collaborator `cmpersist.GetObjectId`: reads the
identity field of the record ("" when there is none). -/
def valObjectId : Val → String
  | .vmap m => getField m "id"
  | .vstruct m => getField m "id"
  | _ => ""

/-- Modelled external collaborator `cmpersist.GenerateObjectId`: generates a
fresh identity when the record has none, writing it into the referenced
record in place. -/
def generateObjectIdAt (gen : String) (h : Heap) (r : Nat) : Heap :=
  match heapGetD h r with
  | .vmap m =>
    if getField m "id" = "" then setAssoc h r (.vmap (setAssoc m "id" gen)) else h
  | .vstruct m =>
    if getField m "id" = "" then setAssoc h r (.vstruct (setAssoc m "id" gen)) else h
  | _ => h

/-- Translated from `IdentifiableCouchbasePersistence.ConvertFromPublic`: a
map record gets `_c` set in place (the argument map itself is mutated and
returned); a struct record is marshalled to a field map, `_c` is injected
into that separate map and the record itself is untouched; any other shape
panics. -/
def ConvertFromPublic (c : PersistCtx) (h : Heap) (r : Nat) : GoResult (Heap × Doc) :=
  match heapGetD h r with
  | .vmap m =>
    let m' := setAssoc m "_c" c.CollectionName
    .ret (setAssoc h r (.vmap m'), m')
  | .vstruct m => .ret (h, setAssoc m "_c" c.CollectionName)
  | .vmapBad =>
    .panic "ConvertFromPublic:Error! Item must to be a map[string]interface\x7b\x7d or struct!"
  | .vother =>
    .panic "ConvertFromPublic:Error! Item must to be a map[string]interface\x7b\x7d or struct!"

/-- Translated from `IdentifiableCouchbasePersistence.ConvertToPublic`: a map
record loses its `_c` field in place, a struct record is left as is, any
other shape panics. -/
def ConvertToPublic (h : Heap) (r : Nat) : GoResult Heap :=
  match heapGetD h r with
  | .vmap m => .ret (setAssoc h r (.vmap (removeAssoc m "_c")))
  | .vstruct _ => .ret h
  | .vmapBad =>
    .panic "ConvertToPublic:Error! Item must to be a map[string]interface\x7b\x7d or struct!"
  | .vother =>
    .panic "ConvertToPublic:Error! Item must to be a map[string]interface\x7b\x7d or struct!"

structure WriteResult where
  heap : Heap
  kv : KV
  result : Option Val
  err : Option GoErr
deriving DecidableEq, Repr

/-- Translated from `IdentifiableCouchbasePersistence.Create`: nil guard,
clone, id generation, `_c` tagging, `Insert` at the derived key.  The
trailing `c.convertToPublic(&newItem)` call in the source is the lower-case
identity conversion of `CouchbasePersistence`, hence a no-op. -/
def Create (c : PersistCtx) (gen : String) (heap : Heap) (kv : KV) (item : Option Nat) :
    GoResult WriteResult :=
  match item with
  | none => .ret ⟨heap, kv, none, none⟩
  | some ref =>
    let (heap1, newRef) := cloneObject heap ref
    let heap2 := generateObjectIdAt gen heap1 newRef
    match ConvertFromPublic c heap2 newRef with
    | .panic msg => .panic msg
    | .ret (heap3, insertedItem) =>
      let id := valObjectId (heapGetD heap3 newRef)
      let objectId := generateBucketId c (some id)
      match bucketInsert kv objectId insertedItem with
      | .error insErr => .ret ⟨heap3, kv, none, some insErr⟩
      | .ok kv' => .ret ⟨heap3, kv', some (heapGetD heap3 newRef), none⟩

/-- Translated from `IdentifiableCouchbasePersistence.Set`: like `Create`
but reading the id before the conversion and writing with `Upsert`. -/
def Set (c : PersistCtx) (gen : String) (heap : Heap) (kv : KV) (item : Option Nat) :
    GoResult WriteResult :=
  match item with
  | none => .ret ⟨heap, kv, none, none⟩
  | some ref =>
    let (heap1, newRef) := cloneObject heap ref
    let heap2 := generateObjectIdAt gen heap1 newRef
    let id := valObjectId (heapGetD heap2 newRef)
    match ConvertFromPublic c heap2 newRef with
    | .panic msg => .panic msg
    | .ret (heap3, setItem) =>
      let objectId := generateBucketId c (some id)
      let kv' := bucketUpsert kv objectId setItem
      .ret ⟨heap3, kv', some (heapGetD heap3 newRef), none⟩

/-- Translated from `IdentifiableCouchbasePersistence.Update`: no nil guard
in the source, so the record reference is mandatory here; writes with
`Replace`, which fails when the key is absent. -/
def Update (c : PersistCtx) (gen : String) (heap : Heap) (kv : KV) (ref : Nat) :
    GoResult WriteResult :=
  let (heap1, newRef) := cloneObject heap ref
  let heap2 := generateObjectIdAt gen heap1 newRef
  let id := valObjectId (heapGetD heap2 newRef)
  match ConvertFromPublic c heap2 newRef with
  | .panic msg => .panic msg
  | .ret (heap3, updateItem) =>
    let objectId := generateBucketId c (some id)
    match bucketReplace kv objectId updateItem with
    | .error repErr => .ret ⟨heap3, kv, none, some repErr⟩
    | .ok kv' => .ret ⟨heap3, kv', some (heapGetD heap3 newRef), none⟩

/-! ### Association list and heap lemmas -/

lemma lookup_setAssoc_self {α β : Type} [DecidableEq α] [BEq α] [LawfulBEq α]
    (l : List (α × β)) (k : α) (v : β) : (setAssoc l k v).lookup k = some v := by
  induction l with
  | nil => simp [setAssoc, List.lookup]
  | cons p rest ih =>
    obtain ⟨k', v'⟩ := p
    by_cases hk : k' = k
    · simp [setAssoc, hk, List.lookup]
    · have hb : (k == k') = false := beq_eq_false_iff_ne.mpr (fun h => hk h.symm)
      simp [setAssoc, hk, List.lookup, hb, ih]

lemma lookup_setAssoc_ne {α β : Type} [DecidableEq α] [BEq α] [LawfulBEq α]
    (l : List (α × β)) (k k' : α) (v : β) (hne : k' ≠ k) :
    (setAssoc l k v).lookup k' = l.lookup k' := by
  have hb : (k' == k) = false := beq_eq_false_iff_ne.mpr hne
  induction l with
  | nil => simp [setAssoc, List.lookup, hb]
  | cons p rest ih =>
    obtain ⟨k₀, v₀⟩ := p
    by_cases hk : k₀ = k
    · subst hk
      simp [setAssoc, List.lookup, hb]
    · cases hb0 : (k' == k₀) <;> simp [setAssoc, hk, List.lookup, hb0, ih]

lemma heapGetD_setAssoc_self (h : Heap) (r : Nat) (v : Val) :
    heapGetD (setAssoc h r v) r = v := by
  simp [heapGetD, lookup_setAssoc_self]

lemma getField_setAssoc_ne (m : Doc) (k k' : String) (v : String) (hne : k' ≠ k) :
    getField (setAssoc m k v) k' = getField m k' := by
  simp [getField, lookup_setAssoc_ne m k k' v hne]

lemma lookup_le_foldKeys (h : Heap) (r : Nat) (hr : (h.lookup r).isSome) :
    r ≤ (h.map (fun p => p.1)).foldr Nat.max 0 := by
  induction h with
  | nil => simp [List.lookup] at hr
  | cons p rest ih =>
    obtain ⟨k, v⟩ := p
    by_cases hrk : r = k
    · subst hrk
      simpa using Nat.le_max_left _ _
    · have hb : (r == k) = false := beq_eq_false_iff_ne.mpr hrk
      have hr' : (rest.lookup r).isSome := by
        simp only [List.lookup, hb] at hr
        exact hr
      calc r ≤ (rest.map (fun p => p.1)).foldr Nat.max 0 := ih hr'
        _ ≤ _ := by simpa using Nat.le_max_right k _

lemma lookup_lt_freshRef (h : Heap) (r : Nat) (hr : (h.lookup r).isSome) :
    r < freshRef h := by
  have := lookup_le_foldKeys h r hr
  unfold freshRef
  omega

lemma generateObjectIdAt_lookup_ne (gen : String) (h : Heap) (r r' : Nat)
    (hne : r' ≠ r) : (generateObjectIdAt gen h r).lookup r' = h.lookup r' := by
  unfold generateObjectIdAt
  split <;> (try split) <;>
    first
      | rfl
      | exact lookup_setAssoc_ne h r r' _ hne

lemma convertFromPublic_ret_lookup_ne (c : PersistCtx) (h : Heap) (r : Nat)
    (h' : Heap) (d : Doc) (r' : Nat) (hne : r' ≠ r)
    (hcv : ConvertFromPublic c h r = .ret (h', d)) : h'.lookup r' = h.lookup r' := by
  unfold ConvertFromPublic at hcv
  split at hcv <;> cases hcv <;>
    first
      | rfl
      | exact lookup_setAssoc_ne h r r' _ hne

/-- For a map-shaped record that already carries a non-empty id, the
clone/generate/tag pipeline shared by the write operations computes to
tagging the clone with `_c` and leaves the id generation step idle. -/
lemma write_pipeline_vmap (c : PersistCtx) (gen : String) (heap : Heap) (ref : Nat)
    (m : Doc) (hv : heap.lookup ref = some (.vmap m)) (hid : getField m "id" ≠ "") :
    generateObjectIdAt gen (setAssoc heap (freshRef heap) (heapGetD heap ref))
        (freshRef heap) =
      setAssoc heap (freshRef heap) (.vmap m) ∧
    ConvertFromPublic c
        (setAssoc heap (freshRef heap) (.vmap m)) (freshRef heap) =
      .ret (setAssoc (setAssoc heap (freshRef heap) (.vmap m)) (freshRef heap)
          (.vmap (setAssoc m "_c" c.CollectionName)),
        setAssoc m "_c" c.CollectionName) := by
  have hgd : heapGetD heap ref = .vmap m := by simp [heapGetD, hv]
  rw [hgd]
  have h1 : heapGetD (setAssoc heap (freshRef heap) (.vmap m)) (freshRef heap) = .vmap m :=
    heapGetD_setAssoc_self _ _ _
  constructor
  · unfold generateObjectIdAt
    rw [h1]
    simp [hid]
  · unfold ConvertFromPublic
    rw [h1]

/-! ## Claim C3 -/

/-- C3: for a (non-nil) map record with a non-empty id: `Create` issues an
`Insert` at the derived key `CollectionName ++ id` and returns the
key-exists error when a document is already stored there; `Set` issues an
`Upsert`, succeeding whether or not the key exists, afterwards the tagged
document sits at the key and every other key is untouched; `Update` issues a
`Replace` and returns the key-not-found error when no document exists at the
key. -/
theorem create_insert_set_upsert_update_replace
    (c : PersistCtx) (gen : String) (heap : Heap) (kv : KV) (ref : Nat) (m : Doc)
    (hv : heap.lookup ref = some (.vmap m)) (hid : getField m "id" ≠ "") :
    ((kv.lookup (c.CollectionName ++ getField m "id")).isSome →
      ∃ h', Create c gen heap kv (some ref) =
        .ret ⟨h', kv, none, some GoErr.keyExists⟩) ∧
    (∃ h' res kv',
      Set c gen heap kv (some ref) = .ret ⟨h', kv', some res, none⟩ ∧
      kv'.lookup (c.CollectionName ++ getField m "id") =
        some (setAssoc m "_c" c.CollectionName) ∧
      ∀ k', k' ≠ c.CollectionName ++ getField m "id" →
        kv'.lookup k' = kv.lookup k') ∧
    ((kv.lookup (c.CollectionName ++ getField m "id")) = none →
      ∃ h', Update c gen heap kv ref =
        .ret ⟨h', kv, none, some GoErr.keyNotFound⟩) := by
  obtain ⟨hgen, hcv⟩ := write_pipeline_vmap c gen heap ref m hv hid
  have hgd3 : heapGetD
      (setAssoc (setAssoc heap (freshRef heap) (.vmap m)) (freshRef heap)
        (.vmap (setAssoc m "_c" c.CollectionName))) (freshRef heap) =
      .vmap (setAssoc m "_c" c.CollectionName) := heapGetD_setAssoc_self _ _ _
  have hgd2 : heapGetD (setAssoc heap (freshRef heap) (.vmap m)) (freshRef heap) =
      .vmap m := heapGetD_setAssoc_self _ _ _
  have hido : valObjectId (.vmap (setAssoc m "_c" c.CollectionName)) = getField m "id" := by
    simp only [valObjectId]
    exact getField_setAssoc_ne m "_c" "id" _ (by decide)
  refine ⟨?_, ?_, ?_⟩
  · intro hex
    obtain ⟨d, hd⟩ := Option.isSome_iff_exists.mp hex
    refine ⟨setAssoc (setAssoc heap (freshRef heap) (.vmap m)) (freshRef heap)
      (.vmap (setAssoc m "_c" c.CollectionName)), ?_⟩
    simp only [Create, cloneObject, hgen, hcv, hgd3, hido, generateBucketId,
      bucketInsert, hd]
  · refine ⟨setAssoc (setAssoc heap (freshRef heap) (.vmap m)) (freshRef heap)
      (.vmap (setAssoc m "_c" c.CollectionName)),
      .vmap (setAssoc m "_c" c.CollectionName),
      setAssoc kv (c.CollectionName ++ getField m "id") (setAssoc m "_c" c.CollectionName),
      ?_, ?_, ?_⟩
    · simp only [Set, cloneObject, hgen, hcv, hgd3, hgd2, valObjectId, generateBucketId,
        bucketUpsert]
    · exact lookup_setAssoc_self _ _ _
    · intro k' hk'
      exact lookup_setAssoc_ne _ _ _ _ hk'
  · intro hnone
    refine ⟨setAssoc (setAssoc heap (freshRef heap) (.vmap m)) (freshRef heap)
      (.vmap (setAssoc m "_c" c.CollectionName)), ?_⟩
    simp only [Update, cloneObject, hgen, hcv, hgd3, hgd2, valObjectId, generateBucketId,
      bucketReplace, hnone]

/-- C3 (witness): over the record `{id: "1"}` at reference 0: `Create`
against a bucket already holding key "dummies1" fails with key-exists,
`Set` against an empty bucket stores the tagged document at "dummies1", and
`Update` against an empty bucket fails with key-not-found. -/
theorem create_set_update_semantics_witness :
    Create (NewIdentifiableCouchbasePersistence "test" "dummies") "42"
        [(0, Val.vmap [("id", "1")])] [("dummies1", [("id", "1")])] (some 0) =
      .ret ⟨[(0, Val.vmap [("id", "1")]),
             (1, Val.vmap [("id", "1"), ("_c", "dummies")])],
            [("dummies1", [("id", "1")])], none, some GoErr.keyExists⟩ ∧
    Set (NewIdentifiableCouchbasePersistence "test" "dummies") "42"
        [(0, Val.vmap [("id", "1")])] [] (some 0) =
      .ret ⟨[(0, Val.vmap [("id", "1")]),
             (1, Val.vmap [("id", "1"), ("_c", "dummies")])],
            [("dummies1", [("id", "1"), ("_c", "dummies")])],
            some (Val.vmap [("id", "1"), ("_c", "dummies")]), none⟩ ∧
    Update (NewIdentifiableCouchbasePersistence "test" "dummies") "42"
        [(0, Val.vmap [("id", "1")])] [] 0 =
      .ret ⟨[(0, Val.vmap [("id", "1")]),
             (1, Val.vmap [("id", "1"), ("_c", "dummies")])],
            [], none, some GoErr.keyNotFound⟩ := by
  obtain ⟨hcre, -, -⟩ := create_insert_set_upsert_update_replace
    (NewIdentifiableCouchbasePersistence "test" "dummies") "42"
    [(0, Val.vmap [("id", "1")])] [("dummies1", [("id", "1")])] 0 [("id", "1")]
    rfl (by decide)
  obtain ⟨-, hsetc, hupdc⟩ := create_insert_set_upsert_update_replace
    (NewIdentifiableCouchbasePersistence "test" "dummies") "42"
    [(0, Val.vmap [("id", "1")])] [] 0 [("id", "1")] rfl (by decide)
  obtain ⟨h1, hc⟩ := hcre rfl
  obtain ⟨h2, res, kv', hs, -, -⟩ := hsetc
  obtain ⟨h3, hu⟩ := hupdc rfl
  refine ⟨hc.trans ?_, hs.trans ?_, hu.trans ?_⟩
  · rw [← hc]
    rfl
  · rw [← hs]
    rfl
  · rw [← hu]
    rfl

/-! ## Claim C9 -/

/-- C9: every write operation works on a clone of the caller's record:
whenever `Create`, `Set` or `Update` returns (rather than panics), the
caller's record is structurally unchanged on the heap — id generation and
`_c` tagging only ever touch the freshly allocated copy. -/
theorem writes_never_mutate_callers_record
    (c : PersistCtx) (gen : String) (heap : Heap) (kv : KV) (ref : Nat) (v : Val)
    (hv : heap.lookup ref = some v) :
    (∀ out, Create c gen heap kv (some ref) = .ret out →
      out.heap.lookup ref = some v) ∧
    (∀ out, Set c gen heap kv (some ref) = .ret out →
      out.heap.lookup ref = some v) ∧
    (∀ out, Update c gen heap kv ref = .ret out →
      out.heap.lookup ref = some v) := by
  have hfresh : ref ≠ freshRef heap :=
    Nat.ne_of_lt (lookup_lt_freshRef heap ref (by simp [hv]))
  have h1 : (setAssoc heap (freshRef heap) (heapGetD heap ref)).lookup ref = some v := by
    rw [lookup_setAssoc_ne heap (freshRef heap) ref _ hfresh]
    exact hv
  have h2 : (generateObjectIdAt gen (setAssoc heap (freshRef heap) (heapGetD heap ref))
      (freshRef heap)).lookup ref = some v := by
    rw [generateObjectIdAt_lookup_ne _ _ _ _ hfresh]
    exact h1
  refine ⟨?_, ?_, ?_⟩
  · intro out hout
    rcases hcv : ConvertFromPublic c (generateObjectIdAt gen
        (setAssoc heap (freshRef heap) (heapGetD heap ref)) (freshRef heap))
        (freshRef heap) with msg | ⟨h3, d⟩
    · simp only [Create, cloneObject, hcv] at hout
      exact GoResult.noConfusion hout
    · have h3l : h3.lookup ref = some v :=
        (convertFromPublic_ret_lookup_ne c _ _ h3 d ref hfresh hcv).trans h2
      simp only [Create, cloneObject, hcv] at hout
      split at hout <;> (cases hout; exact h3l)
  · intro out hout
    rcases hcv : ConvertFromPublic c (generateObjectIdAt gen
        (setAssoc heap (freshRef heap) (heapGetD heap ref)) (freshRef heap))
        (freshRef heap) with msg | ⟨h3, d⟩
    · simp only [Set, cloneObject, hcv] at hout
      exact GoResult.noConfusion hout
    · have h3l : h3.lookup ref = some v :=
        (convertFromPublic_ret_lookup_ne c _ _ h3 d ref hfresh hcv).trans h2
      simp only [Set, cloneObject, hcv] at hout
      cases hout
      exact h3l
  · intro out hout
    rcases hcv : ConvertFromPublic c (generateObjectIdAt gen
        (setAssoc heap (freshRef heap) (heapGetD heap ref)) (freshRef heap))
        (freshRef heap) with msg | ⟨h3, d⟩
    · simp only [Update, cloneObject, hcv] at hout
      exact GoResult.noConfusion hout
    · have h3l : h3.lookup ref = some v :=
        (convertFromPublic_ret_lookup_ne c _ _ h3 d ref hfresh hcv).trans h2
      simp only [Update, cloneObject, hcv] at hout
      split at hout <;> (cases hout; exact h3l)

/-- C9 (witness): creating, setting and updating the record `{id: "1"}`
leaves the caller's record at reference 0 unchanged. -/
theorem writes_never_mutate_callers_record_witness :
    Create (NewIdentifiableCouchbasePersistence "test" "dummies") "42"
        [(0, Val.vmap [("id", "1")])] [] (some 0) =
      .ret ⟨[(0, Val.vmap [("id", "1")]),
             (1, Val.vmap [("id", "1"), ("_c", "dummies")])],
            [("dummies1", [("id", "1"), ("_c", "dummies")])],
            some (Val.vmap [("id", "1"), ("_c", "dummies")]), none⟩ ∧
    ([(0, Val.vmap [("id", "1")]),
      (1, Val.vmap [("id", "1"), ("_c", "dummies")])] : Heap).lookup 0 =
      some (Val.vmap [("id", "1")]) := by
  refine ⟨rfl, ?_⟩
  exact (writes_never_mutate_callers_record
    (NewIdentifiableCouchbasePersistence "test" "dummies") "42"
    [(0, Val.vmap [("id", "1")])] [] 0 (Val.vmap [("id", "1")]) rfl).1
    ⟨[(0, Val.vmap [("id", "1")]),
      (1, Val.vmap [("id", "1"), ("_c", "dummies")])],
     [("dummies1", [("id", "1"), ("_c", "dummies")])],
     some (Val.vmap [("id", "1"), ("_c", "dummies")]), none⟩ rfl

/-! ## Claim C10 -/

/-- C10: for a record whose dynamic shape is neither a
`map[string]interface\x7b\x7d` nor a struct, `ConvertFromPublic` and
`ConvertToPublic` panic instead of returning an error, and consequently
`Create`, `Set` and `Update` panic (never return an error value) on such a
record. -/
theorem conversions_and_writes_panic_on_unsupported_shape
    (c : PersistCtx) (gen : String) (heap : Heap) (kv : KV) (ref : Nat)
    (hshape : heapGetD heap ref = .vother ∨ heapGetD heap ref = .vmapBad) :
    ConvertFromPublic c heap ref =
      .panic "ConvertFromPublic:Error! Item must to be a map[string]interface\x7b\x7d or struct!" ∧
    ConvertToPublic heap ref =
      .panic "ConvertToPublic:Error! Item must to be a map[string]interface\x7b\x7d or struct!" ∧
    Create c gen heap kv (some ref) =
      .panic "ConvertFromPublic:Error! Item must to be a map[string]interface\x7b\x7d or struct!" ∧
    Set c gen heap kv (some ref) =
      .panic "ConvertFromPublic:Error! Item must to be a map[string]interface\x7b\x7d or struct!" ∧
    Update c gen heap kv ref =
      .panic "ConvertFromPublic:Error! Item must to be a map[string]interface\x7b\x7d or struct!" := by
  have hclone : heapGetD (setAssoc heap (freshRef heap) (heapGetD heap ref))
      (freshRef heap) = heapGetD heap ref := heapGetD_setAssoc_self _ _ _
  have hgen : generateObjectIdAt gen (setAssoc heap (freshRef heap) (heapGetD heap ref))
      (freshRef heap) = setAssoc heap (freshRef heap) (heapGetD heap ref) := by
    unfold generateObjectIdAt
    rw [hclone]
    rcases hshape with hsh | hsh <;> rw [hsh]
  have hcv : ConvertFromPublic c (generateObjectIdAt gen
      (setAssoc heap (freshRef heap) (heapGetD heap ref)) (freshRef heap))
      (freshRef heap) =
      .panic "ConvertFromPublic:Error! Item must to be a map[string]interface\x7b\x7d or struct!" := by
    rw [hgen]
    unfold ConvertFromPublic
    rw [hclone]
    rcases hshape with hsh | hsh <;> rw [hsh]
  refine ⟨?_, ?_, ?_, ?_, ?_⟩
  · unfold ConvertFromPublic
    rcases hshape with hsh | hsh <;> rw [hsh]
  · unfold ConvertToPublic
    rcases hshape with hsh | hsh <;> rw [hsh]
  · simp only [Create, cloneObject, hcv]
  · simp only [Set, cloneObject, hcv]
  · simp only [Update, cloneObject, hcv]

/-- C10 (witness): a record of an unsupported dynamic shape (neither map nor
struct) makes both conversions and all three write operations panic. -/
theorem conversions_and_writes_panic_witness :
    ConvertFromPublic (NewIdentifiableCouchbasePersistence "test" "dummies")
        [(0, Val.vother)] 0 =
      .panic "ConvertFromPublic:Error! Item must to be a map[string]interface\x7b\x7d or struct!" ∧
    ConvertToPublic [(0, Val.vother)] 0 =
      .panic "ConvertToPublic:Error! Item must to be a map[string]interface\x7b\x7d or struct!" ∧
    Create (NewIdentifiableCouchbasePersistence "test" "dummies") "42"
        [(0, Val.vother)] [] (some 0) =
      .panic "ConvertFromPublic:Error! Item must to be a map[string]interface\x7b\x7d or struct!" ∧
    Set (NewIdentifiableCouchbasePersistence "test" "dummies") "42"
        [(0, Val.vother)] [] (some 0) =
      .panic "ConvertFromPublic:Error! Item must to be a map[string]interface\x7b\x7d or struct!" ∧
    Update (NewIdentifiableCouchbasePersistence "test" "dummies") "42"
        [(0, Val.vother)] [] 0 =
      .panic "ConvertFromPublic:Error! Item must to be a map[string]interface\x7b\x7d or struct!" :=
  conversions_and_writes_panic_on_unsupported_shape
    (NewIdentifiableCouchbasePersistence "test" "dummies") "42"
    [(0, Val.vother)] [] 0 (Or.inl rfl)

/-! ## Claim C8: concurrent DeleteByIds

Translated from `IdentifiableCouchbasePersistence.DeleteByIds`: one goroutine
per id performs a `Remove` of the derived bucket key; a removal error other
than key-not-found overwrites the shared `err` variable, a successful
removal increments the shared counter, and `wg.Wait()` joins every goroutine
before the final `err` is returned.  Each per-id removal has one of three
outcomes; the shared-variable writes are modelled as atomic and are folded
in an arbitrary interleaving order (a permutation of the per-id outcomes),
which the theorem quantifies over. -/

inductive DeleteOutcome
  | success
  | notFound
  | failure (e : GoErr)
deriving DecidableEq, Repr

/-- One goroutine body's effect on the shared `(count, err)` pair. -/
def deleteStep (acc : Nat × Option GoErr) (o : DeleteOutcome) : Nat × Option GoErr :=
  match o with
  | .success => (acc.1 + 1, acc.2)
  | .notFound => acc
  | .failure e => (acc.1, some e)

/-- The joined shared state after all goroutines ran in the given order. -/
def deleteByIdsJoin (sched : List DeleteOutcome) : Nat × Option GoErr :=
  sched.foldl deleteStep (0, none)

/-- The error write that lands last in the given order. -/
def errStep (acc : Option GoErr) (o : DeleteOutcome) : Option GoErr :=
  match o with
  | .failure e => some e
  | _ => acc

def lastErrorFrom (sched : List DeleteOutcome) : Option GoErr :=
  sched.foldl errStep none

lemma deleteByIdsJoin_fst (sched : List DeleteOutcome) (n : Nat) (e0 : Option GoErr) :
    (sched.foldl deleteStep (n, e0)).1 =
      n + sched.countP (fun o => o == .success) := by
  induction sched generalizing n e0 with
  | nil => simp
  | cons o rest ih =>
    cases o <;> simp [deleteStep, List.countP_cons, ih] <;> omega

lemma deleteByIdsJoin_snd (sched : List DeleteOutcome) (n : Nat) (e0 : Option GoErr) :
    (sched.foldl deleteStep (n, e0)).2 = sched.foldl errStep e0 := by
  induction sched generalizing n e0 with
  | nil => rfl
  | cons o rest ih => cases o <;> simp [deleteStep, errStep, ih]

lemma errFold_none_iff (sched : List DeleteOutcome) (e0 : Option GoErr) :
    sched.foldl errStep e0 = none ↔
      (e0 = none ∧ ∀ e, DeleteOutcome.failure e ∉ sched) := by
  induction sched generalizing e0 with
  | nil => simp
  | cons o rest ih =>
    cases o with
    | success =>
      simp only [List.foldl_cons, errStep, ih]
      constructor
      · rintro ⟨he, hmem⟩
        exact ⟨he, fun e => by simp [hmem e]⟩
      · rintro ⟨he, hmem⟩
        exact ⟨he, fun e => fun hc => (hmem e) (List.mem_cons_of_mem _ hc)⟩
    | notFound =>
      simp only [List.foldl_cons, errStep, ih]
      constructor
      · rintro ⟨he, hmem⟩
        exact ⟨he, fun e => by simp [hmem e]⟩
      · rintro ⟨he, hmem⟩
        exact ⟨he, fun e => fun hc => (hmem e) (List.mem_cons_of_mem _ hc)⟩
    | failure e =>
      simp only [List.foldl_cons, errStep, ih]
      constructor
      · rintro ⟨he, -⟩
        exact absurd he (by simp)
      · rintro ⟨-, hmem⟩
        exact absurd (List.mem_cons_self _ _) (hmem e)

lemma errFold_some_mem (sched : List DeleteOutcome) (e0 : Option GoErr) (e : GoErr)
    (h : sched.foldl errStep e0 = some e) :
    DeleteOutcome.failure e ∈ sched ∨ e0 = some e := by
  induction sched generalizing e0 with
  | nil => exact Or.inr h
  | cons o rest ih =>
    rcases o with - | - | e'
    · rcases ih e0 h with hm | h0
      · exact Or.inl (List.mem_cons_of_mem _ hm)
      · exact Or.inr h0
    · rcases ih e0 h with hm | h0
      · exact Or.inl (List.mem_cons_of_mem _ hm)
      · exact Or.inr h0
    · rcases ih (some e') h with hm | h0
      · exact Or.inl (List.mem_cons_of_mem _ hm)
      · refine Or.inl ?_
        have : e' = e := by simpa using h0
        subst this
        exact List.mem_cons_self _ _

/-- C8: `DeleteByIds` fans out one removal per id (at the derived bucket
key) and joins them all; under any interleaving of the per-goroutine
shared-state writes: the success counter counts exactly the successful
removals, per-id key-not-found results never surface, the returned error is
`nil` exactly when no removal hit a real error, and otherwise it is the last
real error observed in the interleaving — always one of the per-id
errors. -/
theorem deleteByIds_concurrent_best_effort
    (c : PersistCtx) (remove : String → DeleteOutcome) (ids : List String)
    (sched : List DeleteOutcome)
    (hperm : sched.Perm (ids.map (fun id => remove (generateBucketId c (some id))))) :
    (deleteByIdsJoin sched).1 =
      (ids.map (fun id => remove (generateBucketId c (some id)))).countP
        (fun o => o == .success) ∧
    ((deleteByIdsJoin sched).2 = none ↔
      ∀ e, DeleteOutcome.failure e ∉
        ids.map (fun id => remove (generateBucketId c (some id)))) ∧
    (∀ e, (deleteByIdsJoin sched).2 = some e →
      DeleteOutcome.failure e ∈ ids.map (fun id => remove (generateBucketId c (some id)))) ∧
    (deleteByIdsJoin sched).2 = lastErrorFrom sched := by
  have hfst := deleteByIdsJoin_fst sched 0 none
  have hsnd := deleteByIdsJoin_snd sched 0 none
  refine ⟨?_, ?_, ?_, ?_⟩
  · rw [deleteByIdsJoin, hfst, Nat.zero_add]
    exact hperm.countP_eq _
  · rw [deleteByIdsJoin, hsnd, errFold_none_iff]
    constructor
    · rintro ⟨-, hmem⟩
      intro e hc
      exact hmem e ((hperm.mem_iff).mpr hc)
    · intro hmem
      exact ⟨rfl, fun e hc => hmem e ((hperm.mem_iff).mp hc)⟩
  · intro e he
    rw [deleteByIdsJoin, hsnd] at he
    rcases errFold_some_mem sched none e he with hm | h0
    · exact (hperm.mem_iff).mp hm
    · exact absurd h0 (by simp)
  · rw [deleteByIdsJoin, hsnd]
    rfl

/-- C8 (witness): two ids, the first removal succeeding and the second
failing with a timeout, joined in reversed order: the counter is 1 and the
last (and only) real error is returned. -/
theorem deleteByIds_concurrent_best_effort_witness :
    (deleteByIdsJoin [DeleteOutcome.failure GoErr.timeout, DeleteOutcome.success]).1 = 1 ∧
    (deleteByIdsJoin [DeleteOutcome.failure GoErr.timeout, DeleteOutcome.success]).2 =
      some GoErr.timeout := by
  obtain ⟨hcount, -, -, -⟩ := deleteByIds_concurrent_best_effort
    (NewIdentifiableCouchbasePersistence "test" "dummies")
    (fun k => if k = "dummies1" then .success else .failure .timeout)
    ["1", "2"] [DeleteOutcome.failure GoErr.timeout, DeleteOutcome.success] (by decide)
  exact ⟨by rw [hcount]; rfl, rfl⟩

/-! ## The connection resolver

Translated from `CouchbaseConnectionResolver` (connect package).  An
endpoint or credential descriptor is its configuration map; the accessors
mirror `ConnectionParams.Uri/Host/Port` and `GetAsString` of the commons
library (`Port` parses the "port" entry, defaulting to 0). -/

abbrev ParamsMap := List (String × String)

def kvGet (m : ParamsMap) (k : String) : String := (m.lookup k).getD ""

def uriOf (e : ParamsMap) : String := kvGet e "uri"

def hostOf (e : ParamsMap) : String := kvGet e "host"

def digitVal (ch : Char) : Option Nat :=
  if 48 ≤ ch.toNat && ch.toNat ≤ 57 then some (ch.toNat - 48) else none

def parseNatAux : List Char → Nat → Option Nat
  | [], acc => some acc
  | ch :: rest, acc =>
    match digitVal ch with
    | some d => parseNatAux rest (acc * 10 + d)
    | none => none

/-- Decimal integer parsing as done by the commons `IntegerConverter`
(used by `ConnectionParams.Port`), yielding the default on anything that is
not a number. -/
def strToIntD (s : String) (dflt : Int) : Int :=
  match s.data with
  | [] => dflt
  | '-' :: rest =>
    match rest, parseNatAux rest 0 with
    | _ :: _, some n => -(n : Int)
    | _, _ => dflt
  | l =>
    match parseNatAux l 0 with
    | some n => (n : Int)
    | none => dflt

def portOf (e : ParamsMap) : Int := strToIntD (kvGet e "port") 0

def databaseOf (e : ParamsMap) : String := kvGet e "database"

inductive ResolveErr
  /-- a `ConfigError` with the given code -/
  | config (code : String)
  /-- a `ConnectionError` with the given code -/
  | connection (code : String)
  /-- an error surfaced by an external resolver or the store client -/
  | external (tag : String)
deriving DecidableEq, Repr

/-- Translated from `CouchbaseConnectionResolver.validateConnection`. -/
def validateConnection (conn : ParamsMap) : Option ResolveErr :=
  if uriOf conn != "" then none
  else if hostOf conn = "" then some (.config "NO_HOST")
  else if portOf conn = 0 then some (.config "NO_PORT")
  else none

def firstValidationError : List ParamsMap → Option ResolveErr
  | [] => none
  | conn :: rest =>
    match validateConnection conn with
    | some e => some e
    | none => firstValidationError rest

/-- Translated from `CouchbaseConnectionResolver.validateConnections`. -/
def validateConnections (conns : List ParamsMap) : Option ResolveErr :=
  if conns.isEmpty then some (.config "NO_CONNECTION")
  else firstValidationError conns

structure CouchbaseConnectionParams where
  Uri : String
  Username : String
  Password : String
deriving DecidableEq, Repr

/-- The uri scan of `composeConnection`: the first endpoint supplying a
non-empty uri short-circuits the composition. -/
def firstUri : List ParamsMap → Option String
  | [] => none
  | conn :: rest => if uriOf conn != "" then some (uriOf conn) else firstUri rest

/-- The hosts loop of `composeConnection`. -/
def hostsFold : List ParamsMap → String → String
  | [], hosts => hosts
  | conn :: rest, hosts =>
    let host := hostOf conn
    let port := portOf conn
    let hosts := if hosts.length > 0 then hosts ++ "," else hosts
    let host := if port > 0 then host ++ ":" ++ toString port else host
    hostsFold rest (hosts ++ host)

/-- The database loop of `composeConnection`. -/
def databaseFold : List ParamsMap → String → String
  | [], database => database
  | conn :: rest, database =>
    let database := if database = "" then databaseOf conn else database
    databaseFold rest database

/-- `StringValueMap.Append`: set every entry of `src` into `dst`. -/
def mapAppend (dst src : ParamsMap) : ParamsMap :=
  src.foldl (fun d p => setAssoc d p.1 p.2) dst

def mergeConnections (conns : List ParamsMap) : ParamsMap :=
  conns.foldl mapAppend []

/-- The six `options.Remove(...)` calls of `composeConnection`. -/
def removeStandardKeys (m : ParamsMap) : ParamsMap :=
  removeAssoc (removeAssoc (removeAssoc (removeAssoc (removeAssoc (removeAssoc
    m "uri") "host") "port") "database") "username") "password"

/-- All endpoint maps merged in configured order, overridden by the
credential map when one resolved (`NewConfigParamsFromMaps`). -/
def mergedWithCredential (connections : List ParamsMap)
    (credential : Option ParamsMap) : ParamsMap :=
  match credential with
  | some cr => mapAppend (mergeConnections connections) cr
  | none => mergeConnections connections

/-- The leftover options of `composeConnection`: the merged maps with the
six standard keys removed. -/
def composeOptions (connections : List ParamsMap) (credential : Option ParamsMap) :
    ParamsMap :=
  removeStandardKeys (mergedWithCredential connections credential)

/-- The query-string loop of `composeConnection` (`key` alone when its value
is empty). -/
def paramsFold : List (String × String) → String → String
  | [], params => params
  | (k, v) :: rest, params =>
    let params := if params.length > 0 then params ++ "&" else params
    let params := params ++ k
    let params := if v != "" then params ++ "=" ++ v else params
    paramsFold rest params

/-- Translated from `CouchbaseConnectionResolver.composeConnection`. -/
def composeConnection (connections : List ParamsMap) (credential : Option ParamsMap) :
    CouchbaseConnectionParams :=
  let username := match credential with | some cr => kvGet cr "username" | none => ""
  let password :=
    if username != "" then
      match credential with | some cr => kvGet cr "password" | none => ""
    else ""
  match firstUri connections with
  | some u => ⟨u, username, password⟩
  | none =>
    let hosts := hostsFold connections ""
    let database := databaseFold connections ""
    let database := if database.length > 0 then "/" ++ database else database
    let options := composeOptions connections credential
    let params := paramsFold options ""
    let params := if params.length > 0 then "?" ++ params else params
    ⟨"couchbase://" ++ hosts ++ database ++ params, username, password⟩

/-- Translated from `CouchbaseConnectionResolver.Resolve`: the two external
resolutions (endpoints and credential) run concurrently and are both joined
before composition; their outcomes are the two parameters.  The endpoint
error (resolution or validation) is checked first, then the credential
error, then the connection is composed. -/
def Resolve (connRes : Except ResolveErr (List ParamsMap))
    (credRes : Except ResolveErr (Option ParamsMap)) :
    Except ResolveErr CouchbaseConnectionParams :=
  match connRes with
  | .error e => .error e
  | .ok conns =>
    match validateConnections conns with
    | some e => .error e
    | none =>
      match credRes with
      | .error e => .error e
      | .ok cred => .ok (composeConnection conns cred)

/-! ## Claim C6 -/

lemma firstValidationError_append (pre l : List ParamsMap)
    (h : ∀ p ∈ pre, validateConnection p = none) :
    firstValidationError (pre ++ l) = firstValidationError l := by
  induction pre with
  | nil => rfl
  | cons p rest ih =>
    have hp : validateConnection p = none := h p (List.mem_cons_self _ _)
    have hrest : ∀ q ∈ rest, validateConnection q = none :=
      fun q hq => h q (List.mem_cons_of_mem _ hq)
    simp only [List.cons_append, firstValidationError, hp]
    exact ih hrest

/-- C6: `Resolve` fails with `ConfigError NO_CONNECTION` on an empty
endpoint list; an endpoint carrying a URI is exempt from validation; an
endpoint without URI fails validation with `NO_HOST` when its host is empty
and with `NO_PORT` when its host is set but its port is zero; and the
validation error of the first invalid endpoint is the error `Resolve`
returns. -/
theorem resolve_validation_errors :
    (∀ credRes, Resolve (.ok []) credRes = .error (.config "NO_CONNECTION")) ∧
    (∀ e, uriOf e ≠ "" → validateConnection e = none) ∧
    (∀ e, uriOf e = "" → hostOf e = "" →
      validateConnection e = some (.config "NO_HOST")) ∧
    (∀ e, uriOf e = "" → hostOf e ≠ "" → portOf e = 0 →
      validateConnection e = some (.config "NO_PORT")) ∧
    (∀ (pre : List ParamsMap) (bad : ParamsMap) (post : List ParamsMap)
      (credRes : Except ResolveErr (Option ParamsMap)) (err : ResolveErr),
      (∀ p ∈ pre, validateConnection p = none) →
      validateConnection bad = some err →
      Resolve (.ok (pre ++ bad :: post)) credRes = .error err) := by
  refine ⟨fun _ => rfl, ?_, ?_, ?_, ?_⟩
  · intro e he
    simp [validateConnection, he]
  · intro e hu hh
    simp [validateConnection, hu, hh]
  · intro e hu hh hp
    simp [validateConnection, hu, hh, hp]
  · intro pre bad post credRes err hpre hbad
    have hval : validateConnections (pre ++ bad :: post) = some err := by
      have hne : (pre ++ bad :: post).isEmpty = false := by
        cases pre <;> rfl
      simp only [validateConnections, hne, Bool.false_eq_true, if_false]
      rw [firstValidationError_append pre (bad :: post) hpre]
      simp [firstValidationError, hbad]
    simp only [Resolve, hval]

/-- C6 (witness): a valid endpoint followed by an empty endpoint map makes
`Resolve` fail with `NO_HOST`; a host-only endpoint validates to `NO_PORT`;
a URI endpoint is exempt. -/
theorem resolve_validation_witness :
    Resolve (.ok [[("host", "localhost"), ("port", "8092")], []]) (.ok none) =
      .error (.config "NO_HOST") ∧
    validateConnection [("host", "localhost")] = some (.config "NO_PORT") ∧
    validateConnection [("uri", "couchbase://cluster")] = none := by
  obtain ⟨-, hexempt, -, hnoport, hfirst⟩ := resolve_validation_errors
  refine ⟨?_, ?_, ?_⟩
  · exact hfirst [[("host", "localhost"), ("port", "8092")]] [] [] (.ok none)
      (.config "NO_HOST") (by decide) (by decide)
  · exact hnoport [("host", "localhost")] rfl (by decide) rfl
  · exact hexempt [("uri", "couchbase://cluster")] (by decide)

/-! ## Claim C4: specification-side composition

These definitions follow the claim's wording: `host[:port]` pairs joined
with commas, a `/database` segment from the first non-empty database value,
and a query string over every leftover key (`key` alone for an empty
value). -/

def joinSep (sep : String) : List String → String
  | [] => ""
  | [x] => x
  | x :: y :: rest => x ++ sep ++ joinSep sep (y :: rest)

/-- `sep ++ x₁ ++ sep ++ x₂ ++ ...`: the tail shape produced by the
separator-before-element loops of `composeConnection`. -/
def sepPre (sep : String) : List String → String
  | [] => ""
  | x :: rest => sep ++ x ++ sepPre sep rest

def specHostPort (e : ParamsMap) : String :=
  if portOf e > 0 then hostOf e ++ ":" ++ toString (portOf e) else hostOf e

def specDatabaseSegment (conns : List ParamsMap) : String :=
  match (conns.map databaseOf).find? (fun d => d != "") with
  | some d => "/" ++ d
  | none => ""

def specRenderOption (p : String × String) : String :=
  if p.2 = "" then p.1 else p.1 ++ "=" ++ p.2

def specQuery (options : ParamsMap) : String :=
  match options with
  | [] => ""
  | _ => "?" ++ joinSep "&" (options.map specRenderOption)

def stdKeys : List String := ["uri", "host", "port", "database", "username", "password"]

def specLeftover (m : ParamsMap) : ParamsMap :=
  m.filter (fun p => !(stdKeys.contains p.1))

def specUsername (credential : Option ParamsMap) : String :=
  match credential with
  | some cr => kvGet cr "username"
  | none => ""

def specPassword (credential : Option ParamsMap) : String :=
  if specUsername credential != "" then
    match credential with
    | some cr => kvGet cr "password"
    | none => ""
  else ""

/-! ### Equivalence of the composition loops with their join forms -/

lemma str_ne_empty_of_data_ne (s : String) (h : s.data ≠ []) : s ≠ "" := by
  intro hs
  subst hs
  exact h rfl

lemma data_ne_of_str_ne (s : String) (h : s ≠ "") : s.data ≠ [] := by
  intro hd
  exact h (String.ext (by rw [hd]))

lemma append_ne_empty_left (a b : String) (ha : a ≠ "") : a ++ b ≠ "" := by
  apply str_ne_empty_of_data_ne
  rw [String.data_append]
  intro hd
  exact data_ne_of_str_ne a ha (List.append_eq_nil.mp hd).1

lemma str_length_pos (s : String) (h : s ≠ "") : s.length > 0 := by
  have hd := data_ne_of_str_ne s h
  cases hs : s.data with
  | nil => exact absurd hs hd
  | cons c cs =>
    simp [String.length, hs]

lemma joinSep_cons (sep x : String) (xs : List String) :
    joinSep sep (x :: xs) = x ++ sepPre sep xs := by
  induction xs generalizing x with
  | nil => simp [joinSep, sepPre]
  | cons y ys ih =>
    simp only [joinSep, sepPre, ih y]
    apply String.ext
    simp [String.data_append, List.append_assoc]

lemma specHostPort_ne (e : ParamsMap) (h : hostOf e ≠ "") : specHostPort e ≠ "" := by
  unfold specHostPort
  split
  · exact append_ne_empty_left _ _ (append_ne_empty_left _ _ h)
  · exact h

lemma specRenderOption_ne (p : String × String) (h : p.1 ≠ "") :
    specRenderOption p ≠ "" := by
  unfold specRenderOption
  split
  · exact h
  · exact append_ne_empty_left _ _ (append_ne_empty_left _ _ h)

lemma hostsFold_acc (conns : List ParamsMap) (acc : String) (hacc : acc ≠ "") :
    hostsFold conns acc = acc ++ sepPre "," (conns.map specHostPort) := by
  induction conns generalizing acc with
  | nil =>
    simp [hostsFold, sepPre]
  | cons e rest ih =>
    have hlen : acc.length > 0 := str_length_pos acc hacc
    have hacc' : (acc ++ ",") ++ specHostPort e ≠ "" :=
      append_ne_empty_left _ _ (append_ne_empty_left _ _ hacc)
    simp only [hostsFold, specHostPort, if_pos hlen]
    rw [show ((acc ++ ",") ++ if portOf e > 0 then hostOf e ++ ":" ++ toString (portOf e)
        else hostOf e) = (acc ++ ",") ++ specHostPort e from rfl,
      ih _ hacc']
    apply String.ext
    simp [sepPre, String.data_append, List.append_assoc]

lemma hostsFold_eq_join (conns : List ParamsMap)
    (hne : ∀ e ∈ conns, hostOf e ≠ "") :
    hostsFold conns "" = joinSep "," (conns.map specHostPort) := by
  cases conns with
  | nil => rfl
  | cons e rest =>
    have hpiece : specHostPort e ≠ "" :=
      specHostPort_ne e (hne e (List.mem_cons_self _ _))
    have hstep : hostsFold (e :: rest) "" = hostsFold rest (specHostPort e) := by
      simp [hostsFold, specHostPort]
    rw [hstep, hostsFold_acc rest _ hpiece, List.map_cons, joinSep_cons]

lemma paramsFold_acc (opts : List (String × String)) (acc : String) (hacc : acc ≠ "") :
    paramsFold opts acc = acc ++ sepPre "&" (opts.map specRenderOption) := by
  induction opts generalizing acc with
  | nil => simp [paramsFold, sepPre]
  | cons p rest ih =>
    obtain ⟨k, v⟩ := p
    have hlen : acc.length > 0 := str_length_pos acc hacc
    by_cases hv : v = ""
    · have hacc' : (acc ++ "&") ++ k ≠ "" :=
        append_ne_empty_left _ _ (append_ne_empty_left _ _ hacc)
      simp only [paramsFold, if_pos hlen, hv, bne_self_eq_false, Bool.false_eq_true,
        if_false]
      rw [ih _ hacc']
      apply String.ext
      simp [sepPre, specRenderOption, hv, String.data_append, List.append_assoc]
    · have hb : (v != "") = true := bne_iff_ne.mpr hv
      have hacc' : ((acc ++ "&") ++ k) ++ "=" ++ v ≠ "" :=
        append_ne_empty_left _ _ (append_ne_empty_left _ _
          (append_ne_empty_left _ _ (append_ne_empty_left _ _ hacc)))
      simp only [paramsFold, if_pos hlen, hb, if_true]
      rw [ih _ hacc']
      apply String.ext
      simp [sepPre, specRenderOption, hv, String.data_append, List.append_assoc]

lemma paramsFold_eq_join (opts : List (String × String))
    (hkeys : ∀ p ∈ opts, p.1 ≠ "") :
    paramsFold opts "" = joinSep "&" (opts.map specRenderOption) := by
  cases opts with
  | nil => rfl
  | cons p rest =>
    obtain ⟨k, v⟩ := p
    have hk : k ≠ "" := hkeys (k, v) (List.mem_cons_self _ _)
    have hpiece : specRenderOption (k, v) ≠ "" := specRenderOption_ne (k, v) hk
    have hstep : paramsFold ((k, v) :: rest) "" = paramsFold rest (specRenderOption (k, v)) := by
      by_cases hv : v = "" <;>
        simp [paramsFold, specRenderOption, hv, bne_iff_ne]
    rw [hstep, paramsFold_acc rest _ hpiece, List.map_cons, joinSep_cons]

lemma databaseFold_acc (conns : List ParamsMap) (acc : String) (hacc : acc ≠ "") :
    databaseFold conns acc = acc := by
  induction conns with
  | nil => rfl
  | cons e rest ih => simp [databaseFold, hacc, ih]

lemma databaseFold_eq_seg (conns : List ParamsMap) :
    (if (databaseFold conns "").length > 0 then "/" ++ databaseFold conns ""
      else databaseFold conns "") = specDatabaseSegment conns := by
  induction conns with
  | nil => rfl
  | cons e rest ih =>
    by_cases hd : databaseOf e = ""
    · have hstep : databaseFold (e :: rest) "" = databaseFold rest "" := by
        simp [databaseFold, hd]
      rw [hstep]
      rw [ih]
      unfold specDatabaseSegment
      simp [hd]
    · have hstep : databaseFold (e :: rest) "" = databaseOf e := by
        simp [databaseFold, databaseFold_acc rest _ hd]
      rw [hstep]
      have hlen := str_length_pos _ hd
      unfold specDatabaseSegment
      simp [hd, bne_iff_ne, hlen]

lemma firstUri_eq_find (conns : List ParamsMap) :
    firstUri conns = (conns.map uriOf).find? (fun s => s != "") := by
  induction conns with
  | nil => rfl
  | cons e rest ih =>
    by_cases hu : uriOf e = ""
    · simp [firstUri, List.find?, hu, ih]
    · simp [firstUri, List.find?, bne_iff_ne.mpr hu, hu]

lemma firstUri_none_all (conns : List ParamsMap) (h : firstUri conns = none) :
    ∀ e ∈ conns, uriOf e = "" := by
  induction conns with
  | nil => simp
  | cons e rest ih =>
    intro x hx
    by_cases hu : uriOf e = ""
    · rcases List.mem_cons.mp hx with hx | hx
      · subst hx
        exact hu
      · have h' : firstUri rest = none := by simpa [firstUri, hu] using h
        exact ih h' x hx
    · exfalso
      simp [firstUri, bne_iff_ne.mpr hu] at h

lemma firstValidationError_none_mem (conns : List ParamsMap)
    (h : firstValidationError conns = none) :
    ∀ e ∈ conns, validateConnection e = none := by
  induction conns with
  | nil => simp
  | cons e rest ih =>
    intro x hx
    rcases hv : validateConnection e with - | err
    · rcases List.mem_cons.mp hx with hx | hx
      · subst hx
        exact hv
      · have h' : firstValidationError rest = none := by
          simpa [firstValidationError, hv] using h
        exact ih h' x hx
    · exfalso
      simp [firstValidationError, hv] at h

lemma validateConnections_none_mem (conns : List ParamsMap)
    (h : validateConnections conns = none) :
    ∀ e ∈ conns, validateConnection e = none := by
  unfold validateConnections at h
  by_cases he : conns.isEmpty
  · simp [he] at h
  · exact firstValidationError_none_mem conns (by simpa [he] using h)

lemma validateConnection_none_host (e : ParamsMap)
    (h : validateConnection e = none) (hu : uriOf e = "") : hostOf e ≠ "" := by
  unfold validateConnection at h
  intro hh
  simp [hu, hh] at h

lemma removeStandardKeys_eq (m : ParamsMap) : removeStandardKeys m = specLeftover m := by
  unfold removeStandardKeys specLeftover removeAssoc
  rw [List.filter_filter, List.filter_filter, List.filter_filter, List.filter_filter,
    List.filter_filter]
  apply List.filter_congr
  intro a _
  by_cases h1 : a.1 = "uri" <;> by_cases h2 : a.1 = "host" <;>
    by_cases h3 : a.1 = "port" <;> by_cases h4 : a.1 = "database" <;>
    by_cases h5 : a.1 = "username" <;> by_cases h6 : a.1 = "password" <;>
    simp [stdKeys, h1, h2, h3, h4, h5, h6]

/-- C4: whenever `Resolve` succeeds (so the resolved endpoints passed
validation), the produced connection is the pure composition the claim
describes: the resolved credential's username (and its password, when a
username is present) is attached; if some endpoint carries a non-empty URI
the first such URI is returned verbatim; otherwise the URI is
`couchbase://` followed by the `host[:port]` pairs joined with commas in
configured order, a `/database` segment holding the first non-empty
database value (empty when none), and a `?`-query over every leftover
endpoint/credential key outside {uri, host, port, database, username,
password}, rendered `key=value`, or `key` alone for an empty value.
(The query-join requires the leftover keys to be non-empty strings, which
the hypothesis on `composeOptions` records.) -/
theorem resolve_composes_connection_from_spec
    (conns : List ParamsMap) (cred : Option ParamsMap) (r : CouchbaseConnectionParams)
    (hok : Resolve (.ok conns) (.ok cred) = .ok r)
    (hkeys : ∀ p ∈ composeOptions conns cred, p.1 ≠ "") :
    r.Username = specUsername cred ∧
    r.Password = specPassword cred ∧
    (∀ u, (conns.map uriOf).find? (fun s => s != "") = some u → r.Uri = u) ∧
    ((conns.map uriOf).find? (fun s => s != "") = none →
      r.Uri = "couchbase://" ++ joinSep "," (conns.map specHostPort) ++
        specDatabaseSegment conns ++
        specQuery (specLeftover (mergedWithCredential conns cred))) := by
  have hval : validateConnections conns = none := by
    rcases hv : validateConnections conns with - | e
    · rfl
    · simp [Resolve, hv] at hok
  have hr : composeConnection conns cred = r := by
    simpa [Resolve, hval] using hok
  subst hr
  have hopteq : specLeftover (mergedWithCredential conns cred) =
      composeOptions conns cred := (removeStandardKeys_eq _).symm
  refine ⟨?_, ?_, ?_, ?_⟩
  · rcases hfu : firstUri conns with - | u <;>
      simp [composeConnection, specUsername, hfu]
  · rcases hfu : firstUri conns with - | u <;>
      simp [composeConnection, specUsername, specPassword, hfu]
  · intro u hfind
    have hfu : firstUri conns = some u := by rw [firstUri_eq_find]; exact hfind
    simp [composeConnection, hfu]
  · intro hnone
    have hfu : firstUri conns = none := by rw [firstUri_eq_find]; exact hnone
    have hvalmem := validateConnections_none_mem conns hval
    have huris := firstUri_none_all conns hfu
    have hhosts : ∀ e ∈ conns, hostOf e ≠ "" := fun e he =>
      validateConnection_none_host e (hvalmem e he) (huris e he)
    have hH := hostsFold_eq_join conns hhosts
    have hD := databaseFold_eq_seg conns
    have hQ : (if (paramsFold (composeOptions conns cred) "").length > 0 then
          "?" ++ paramsFold (composeOptions conns cred) ""
        else paramsFold (composeOptions conns cred) "") =
        specQuery (specLeftover (mergedWithCredential conns cred)) := by
      rw [hopteq]
      rcases hopt : composeOptions conns cred with - | ⟨p, rest⟩
      · simp [paramsFold, specQuery]
      · have hkeys' : ∀ q ∈ composeOptions conns cred, q.1 ≠ "" := hkeys
        rw [hopt] at hkeys'
        have hpf := paramsFold_eq_join (p :: rest) hkeys'
        have hk : p.1 ≠ "" := hkeys' p (List.mem_cons_self _ _)
        have hne : joinSep "&" ((p :: rest).map specRenderOption) ≠ "" := by
          rw [List.map_cons, joinSep_cons]
          exact append_ne_empty_left _ _ (specRenderOption_ne p hk)
        rw [hpf, if_pos (str_length_pos _ hne)]
        rfl
    simp only [composeConnection, hfu]
    rw [hH, hD, hQ]

/-- C4 (witness): the repository's own resolver test case — two endpoints
`host1`/`host2` on port 8092, database "test", credential admin /
password123 — composes to `couchbase://host1:8092,host2:8092/test` with the
credentials attached, and that URI agrees with the claim's composition. -/
theorem resolve_composes_connection_witness :
    Resolve (.ok [[("host", "host1"), ("port", "8092"), ("database", "test")],
                  [("host", "host2"), ("port", "8092"), ("database", "test")]])
        (.ok (some [("username", "admin"), ("password", "password123")])) =
      .ok ⟨"couchbase://host1:8092,host2:8092/test", "admin", "password123"⟩ ∧
    ("couchbase://host1:8092,host2:8092/test" : String) =
      "couchbase://" ++
        joinSep "," ([[("host", "host1"), ("port", "8092"), ("database", "test")],
          [("host", "host2"), ("port", "8092"), ("database", "test")]].map specHostPort) ++
        specDatabaseSegment [[("host", "host1"), ("port", "8092"), ("database", "test")],
          [("host", "host2"), ("port", "8092"), ("database", "test")]] ++
        specQuery (specLeftover (mergedWithCredential
          [[("host", "host1"), ("port", "8092"), ("database", "test")],
           [("host", "host2"), ("port", "8092"), ("database", "test")]]
          (some [("username", "admin"), ("password", "password123")]))) := by
  have hok : Resolve
      (.ok [[("host", "host1"), ("port", "8092"), ("database", "test")],
            [("host", "host2"), ("port", "8092"), ("database", "test")]])
      (.ok (some [("username", "admin"), ("password", "password123")])) =
      .ok ⟨"couchbase://host1:8092,host2:8092/test", "admin", "password123"⟩ := by rfl
  obtain ⟨-, -, -, hcomp⟩ := resolve_composes_connection_from_spec
    [[("host", "host1"), ("port", "8092"), ("database", "test")],
     [("host", "host2"), ("port", "8092"), ("database", "test")]]
    (some [("username", "admin"), ("password", "password123")])
    ⟨"couchbase://host1:8092,host2:8092/test", "admin", "password123"⟩
    hok (by decide)
  exact ⟨hok, hcomp (by decide)⟩

/-! ## The cluster connection (C7)

Translated from `CouchbaseConnection` (part_010): cluster and bucket
handles are opaque (numbered) handles produced by the store client; the
environment carries the outcome each external call would produce during one
run of `Open`.  `IsOpen` is `c.Connection != nil`. -/

structure ConnectionState where
  Connection : Option Nat
  Bucket : Option Nat
deriving DecidableEq, Repr

def ConnectionState.IsOpen (c : ConnectionState) : Bool := c.Connection.isSome

structure OpenEnv where
  /-- outcome of `ConnectionResolver.Resolve` -/
  resolveRes : Except ResolveErr CouchbaseConnectionParams
  /-- outcome of `gocb.Connect` -/
  connectRes : Except ResolveErr Nat
  /-- `options.auto_create` -/
  autoCreate : Bool
  /-- error message of `InsertBucket` (`none` = creation succeeded) -/
  insertBucketErr : Option String
  /-- outcome of `OpenBucket` -/
  openBucketRes : Except ResolveErr Nat
  /-- `options.auto_index` -/
  autoIndex : Bool
  /-- outcome of `CreatePrimaryIndex` (`none` = success) -/
  createIndexErr : Option ResolveErr
deriving Repr

/-- The open-bucket / create-index tail of `CouchbaseConnection.Open`:
failure to open the bucket wraps into `ConnectionError CONNECT_FAILED` and
clears both handles; a primary index is created when the bucket was just
created or `auto_index` is set, failure clearing both handles. -/
def connectionOpenBucket (env : OpenEnv) (st : ConnectionState) (newBucket : Bool) :
    ConnectionState × Option ResolveErr :=
  match env.openBucketRes with
  | .error _opnErr =>
    (⟨none, none⟩, some (.connection "CONNECT_FAILED"))
  | .ok bucket =>
    let st := { st with Bucket := some bucket }
    if newBucket || env.autoIndex then
      match env.createIndexErr with
      | some e => (⟨none, none⟩, some e)
      | none => (st, none)
    else (st, none)

/-- Translated from `CouchbaseConnection.Open` (part_010 lines 114-208).
There is no already-open guard: the function always resolves, connects and
re-opens.  On resolution or connect failure the error is returned with the
previous state untouched; afterwards the cluster handle is replaced, and
`auto_create` failures other than "name already exist" clear both
handles. -/
def ConnectionOpen (env : OpenEnv) (st : ConnectionState) :
    ConnectionState × Option ResolveErr :=
  match env.resolveRes with
  | .error resErr => (st, some resErr)
  | .ok _connection =>
    match env.connectRes with
    | .error conErr => (st, some conErr)
    | .ok cluster =>
      let st1 : ConnectionState := { st with Connection := some cluster }
      if env.autoCreate then
        match env.insertBucketErr with
        | some msg =>
          if msg != "" && !(hasSubstr "name already exist" msg) then
            (⟨none, none⟩, some (.external msg))
          else
            connectionOpenBucket env st1 false
        | none => connectionOpenBucket env st1 true
      else
        connectionOpenBucket env st1 false

/-- The state of `CouchbasePersistence` relevant to its `Open`. -/
structure PersistenceState where
  opened : Bool
  localConnection : Bool
  hasConnection : Bool
  connState : ConnectionState
  Cluster : Option Nat
  Bkt : Option Nat
deriving DecidableEq, Repr

/-- Translated from `CouchbasePersistence.Open`
(src/persistence/CouchbasePersistence.go lines 215-250): an already-opened
component returns success immediately; otherwise a missing connection is
created locally, a locally-owned connection is opened, a connection that
reports not-open yields `ConnectionError CONNECT_FAILED`, and on success
the cluster/bucket handles are captured. -/
def CouchbasePersistenceOpen (env : OpenEnv) (st : PersistenceState) :
    PersistenceState × Option ResolveErr :=
  if st.opened then (st, none)
  else
    let st0 := if st.hasConnection then st
      else { st with hasConnection := true, localConnection := true,
                     connState := ⟨none, none⟩ }
    let res := if st0.localConnection then ConnectionOpen env st0.connState
      else (st0.connState, none)
    match res.2 with
    | some e => ({ st0 with opened := false, connState := res.1 }, some e)
    | none =>
      if res.1.IsOpen then
        ({ st0 with
            opened := true
            connState := res.1
            Cluster := res.1.Connection
            Bkt := res.1.Bucket }, none)
      else
        ({ st0 with opened := false, connState := res.1 },
          some (.connection "CONNECT_FAILED"))

/-! ## Claim C7 -/

/-- C7 (counterexample): the claim states that calling
`CouchbaseConnection.Open` on an already-open connection is a no-op that
returns success and leaves the handles unchanged.  It is not: with cluster
handle 7 and bucket handle 3 open, a run whose resolution fails returns
that error (not success), and a fully successful run replaces both handles
with the freshly connected ones (42 and 43). -/
theorem connectionOpen_again_is_not_a_noop :
    (⟨some 7, some 3⟩ : ConnectionState).IsOpen = true ∧
    ConnectionOpen
      ⟨.error (.config "NO_CONNECTION"), .ok 42, false, none, .ok 43, false, none⟩
      ⟨some 7, some 3⟩ =
      (⟨some 7, some 3⟩, some (.config "NO_CONNECTION")) ∧
    ConnectionOpen
      ⟨.ok ⟨"couchbase://localhost", "", ""⟩, .ok 42, false, none, .ok 43, false, none⟩
      ⟨some 7, some 3⟩ =
      (⟨some 42, some 43⟩, none) :=
  ⟨rfl, rfl, rfl⟩

/-- C7 (amended): `CouchbaseConnection.Open` has no already-open guard — for
every prior state, open or not, it re-runs the full open sequence: a
resolution failure is propagated as an error with the previous handles left
in place, and a successful run (no auto-create, no auto-index) replaces the
cluster and bucket handles with the freshly connected ones.  The no-op on
an already-open component exists one level up: `CouchbasePersistence.Open`
returns success immediately and changes nothing when `opened` is set. -/
theorem connectionOpen_reruns_persistenceOpen_guards
    :
    (∀ (env : OpenEnv) (st : ConnectionState) (e : ResolveErr),
      env.resolveRes = .error e → ConnectionOpen env st = (st, some e)) ∧
    (∀ (env : OpenEnv) (st : ConnectionState) (conn : CouchbaseConnectionParams)
      (cluster bucket : Nat),
      env.resolveRes = .ok conn → env.connectRes = .ok cluster →
      env.autoCreate = false → env.openBucketRes = .ok bucket →
      env.autoIndex = false →
      ConnectionOpen env st = (⟨some cluster, some bucket⟩, none)) ∧
    (∀ (env : OpenEnv) (st : PersistenceState), st.opened = true →
      CouchbasePersistenceOpen env st = (st, none)) := by
  refine ⟨?_, ?_, ?_⟩
  · intro env st e h
    simp [ConnectionOpen, h]
  · intro env st conn cluster bucket hres hconn hcre hbkt hidx
    simp [ConnectionOpen, hres, hconn, hcre, connectionOpenBucket, hbkt, hidx]
  · intro env st h
    simp [CouchbasePersistenceOpen, h]

/-- C7 (witness for the amended theorem): a failing resolution surfaces its
error from `ConnectionOpen` and leaves the open state in place; a
successful run replaces the handles; an opened persistence component's
`Open` is a no-op. -/
theorem connectionOpen_reruns_witness :
    ConnectionOpen
      ⟨.error (.config "NO_CONNECTION"), .ok 42, false, none, .ok 43, false, none⟩
      ⟨some 7, some 3⟩ =
      (⟨some 7, some 3⟩, some (.config "NO_CONNECTION")) ∧
    ConnectionOpen
      ⟨.ok ⟨"couchbase://localhost", "", ""⟩, .ok 42, false, none, .ok 43, false, none⟩
      ⟨some 7, some 3⟩ =
      (⟨some 42, some 43⟩, none) ∧
    CouchbasePersistenceOpen
      ⟨.ok ⟨"couchbase://localhost", "", ""⟩, .ok 42, false, none, .ok 43, false, none⟩
      ⟨true, true, true, ⟨some 7, some 3⟩, some 7, some 3⟩ =
      (⟨true, true, true, ⟨some 7, some 3⟩, some 7, some 3⟩, none) := by
  obtain ⟨h1, h2, h3⟩ := connectionOpen_reruns_persistenceOpen_guards
  exact ⟨h1 _ ⟨some 7, some 3⟩ _ rfl,
         h2 _ ⟨some 7, some 3⟩ ⟨"couchbase://localhost", "", ""⟩ 42 43 rfl rfl rfl rfl rfl,
         h3 _ ⟨true, true, true, ⟨some 7, some 3⟩, some 7, some 3⟩ rfl⟩

end Couchbase
